import Mathlib

/-!
Shallow embedding of the store-service repository: the DynamoDB-backed item
store (internal/data/store.go) and the gRPC request handlers
(internal/server).  The backing table is an association list of records keyed
by partition key and sort key; the DynamoDB client calls the source makes
(PutItem, GetItem, UpdateItem with a SET expression that upserts, Query over a
partition with a sort-key range, a limit and an exclusive start key) are given
their documented key-value semantics.  Wall-clock time and the UUID generator
are external collaborators and enter as parameters.  Go int32/int64 values are
modelled as Int, with explicit two-complement wrap-around where the source
performs 32-bit arithmetic; float64 prices are modelled as Rat, exact for the
only operations the source performs on them (storage and a sign test).
Backing-store write failures, which the source propagates as wrapped
infrastructure errors, are modelled by explicit failure flags on the
operations whose failure behaviour the specification discusses.
-/

namespace StoreService

/-- Item categories, from data.ItemCategory (iota order in store.go). -/
inductive ItemCategory where
  | unspecified
  | electronics
  | clothing
  | books
  | home
  | sports
deriving DecidableEq, Repr

/-- Item statuses, from data.ItemStatus (iota order in store.go). -/
inductive ItemStatus where
  | unspecified
  | active
  | inactive
  | outOfStock
  | discontinued
deriving DecidableEq, Repr

/-- An item record, from the data.Item struct in store.go.  Timestamps are
modelled as Nat clock readings, float64 price as Rat, int32/int64 as Int. -/
structure Item where
  pk : String
  sk : String
  itemID : String
  tenantID : Int
  name : String
  description : String
  price : Rat
  category : ItemCategory
  status : ItemStatus
  sku : String
  inventoryCount : Int
  tags : List String
  createdAt : Nat
  updatedAt : Nat
  createdBy : String
  updatedBy : String
deriving DecidableEq, Repr

/-- Partition key construction, fmt.Sprintf TENANT with the tenant id. -/
def tenantPK (tenantID : Int) : String := "TENANT#" ++ toString tenantID

/-- Sort key construction, fmt.Sprintf ITEM with the item id. -/
def itemSK (itemID : String) : String := "ITEM#" ++ itemID

/-- The DynamoDB table, as the sequence of records it holds, in the order the
backing store enumerates them for a range query. -/
abbrev Table := List Item

/-- Whether a record sits at the given composite key. -/
def keyMatches (pk sk : String) (r : Item) : Bool := r.pk == pk && r.sk == sk

/-- Point read at a composite key (the DynamoDB GetItem call). -/
def lookupItem (t : Table) (pk sk : String) : Option Item :=
  t.find? (keyMatches pk sk)

/-- Point write at a composite key (the DynamoDB PutItem call): replaces the
record at the key, or appends a fresh one. -/
def putRecord (t : Table) (it : Item) : Table :=
  if t.any (keyMatches it.pk it.sk) then
    t.map fun r => if keyMatches it.pk it.sk r then it else r
  else t ++ [it]

/-- The record a DynamoDB update creates at a missing key: only the key
attributes and the SET attributes are present, every other attribute
unmarshals to its Go zero value. -/
def emptyItem : Item :=
  { pk := "", sk := "", itemID := "", tenantID := 0, name := "",
    description := "", price := 0, category := .unspecified,
    status := .unspecified, sku := "", inventoryCount := 0, tags := [],
    createdAt := 0, updatedAt := 0, createdBy := "", updatedBy := "" }

/-- A DynamoDB UpdateItem call with a SET expression: rewrites the record at
the key, or upserts a record holding zero values outside the SET attributes
when the key is absent. -/
def updateRecord (t : Table) (pk sk : String) (f : Item → Item) : Table :=
  if t.any (keyMatches pk sk) then
    t.map fun r => if keyMatches pk sk r then f r else r
  else t ++ [f { emptyItem with pk := pk, sk := sk }]

/-- Errors surfaced by the store layer: ErrItemNotFound, the insufficient
inventory error (which embeds the current count and the requested change, as
the fmt.Errorf in store.go does), and wrapped backing-store failures. -/
inductive StoreError where
  | itemNotFound
  | insufficientInventory (current requestedChange : Int)
  | infrastructure (message : String)
deriving DecidableEq, Repr

/-- Signed 32-bit wrap-around, the semantics of Go int32 addition. -/
def wrap32 (x : Int) : Int := (x + 2 ^ 31) % 2 ^ 32 - 2 ^ 31

/-- DynamoStore.CreateItem: builds the full record with status active, both
timestamps equal to now and both actor fields equal to createdBy, then writes
it unconditionally.  The generated UUID and the clock reading are the itemID
and now parameters. -/
def createItem (t : Table) (tenantID : Int) (name description : String)
    (price : Rat) (category : ItemCategory) (sku : String)
    (inventoryCount : Int) (tags : List String) (createdBy : String)
    (itemID : String) (now : Nat) : Table × Item :=
  let item : Item :=
    { pk := tenantPK tenantID, sk := itemSK itemID, itemID := itemID,
      tenantID := tenantID, name := name, description := description,
      price := price, category := category, status := .active, sku := sku,
      inventoryCount := inventoryCount, tags := tags, createdAt := now,
      updatedAt := now, createdBy := createdBy, updatedBy := createdBy }
  (putRecord t item, item)

/-- DynamoStore.GetItem: point read, ErrItemNotFound when the backing store
reports no record at the composite key. -/
def getItem (t : Table) (tenantID : Int) (itemID : String) :
    Except StoreError Item :=
  match lookupItem t (tenantPK tenantID) (itemSK itemID) with
  | none => .error .itemNotFound
  | some it => .ok it

/-- DynamoStore.UpdateItem: one SET expression overwriting every mutable
field, then a re-read via GetItem. -/
def updateItem (t : Table) (tenantID : Int) (itemID name description : String)
    (price : Rat) (category : ItemCategory) (status : ItemStatus)
    (sku : String) (inventoryCount : Int) (tags : List String)
    (updatedBy : String) (now : Nat) : Table × Except StoreError Item :=
  let t2 := updateRecord t (tenantPK tenantID) (itemSK itemID) fun r =>
    { r with name := name, description := description, price := price,
             category := category, status := status, sku := sku,
             inventoryCount := inventoryCount, tags := tags,
             updatedAt := now, updatedBy := updatedBy }
  (t2, getItem t2 tenantID itemID)

/-- DynamoStore.DeleteItem: a SET expression writing status discontinued and a
fresh updatedAt, with no existence check.  failWrite injects the backing-store
write failure the source wraps as a failed-to-delete infrastructure error. -/
def deleteItem (t : Table) (tenantID : Int) (itemID : String) (now : Nat)
    (failWrite : Bool) : Table × Except StoreError Unit :=
  if failWrite then (t, .error (.infrastructure "failed to delete item"))
  else
    (updateRecord t (tenantPK tenantID) (itemSK itemID) fun r =>
      { r with status := .discontinued, updatedAt := now }, .ok ())

/-- Whether the first character list begins the second. -/
def listPre : List Char → List Char → Bool
  | [], _ => true
  | _ :: _, [] => false
  | a :: as, b :: bs => a == b && listPre as bs

/-- Whether the sort key s begins with the marker, character by character. -/
def skHasMark (mark s : String) : Bool := listPre mark.data s.data

/-- The strict sort-key order of the backing store.  DynamoDB compares string
keys by UTF-8 bytes, which orders exactly as the code points do. -/
def skLt (a b : String) : Bool := decide (a.data < b.data)

/-- The DynamoDB Query the source issues in ListItems: records of the
partition whose sort key carries the item marker, strictly after the exclusive
start key when one is supplied, evaluated up to the limit.  The last evaluated
key is reported exactly when the scan stopped at the limit, as the backing
store does. -/
def queryPage (t : Table) (pk skMark startSK : String) (limit : Nat) :
    List Item × Option String :=
  let page := (t.filter fun r =>
    r.pk == pk && skHasMark skMark r.sk &&
      (startSK == "" || skLt startSK r.sk)).take limit
  let lek := if page.length = limit then page.getLast?.map (fun r => r.sk)
    else none
  (page, lek)

/-- DynamoStore.ListItems: queries one page of the partition, skips records
failing the in-memory category and status filters (Unspecified filters
nothing), passes the caller token verbatim as the exclusive start key, returns
the raw sort key of the last evaluated record as the next token (empty when
the backing store reports none) and the length of the filtered page as the
count.  searchQuery is accepted and never used, as in the source. -/
def listItems (t : Table) (tenantID : Int) (category : ItemCategory)
    (status : ItemStatus) (searchQuery : String) (pageSize : Int)
    (pageToken : String) : List Item × String × Int :=
  let qr := queryPage t (tenantPK tenantID) "ITEM#" pageToken pageSize.toNat
  let items := qr.1.filter fun i =>
    (category == .unspecified || i.category == category) &&
    (status == .unspecified || i.status == status)
  let nextPageToken := match qr.2 with
    | some sk => sk
    | none => ""
  (items, nextPageToken, (items.length : Int))

/-- The triple DynamoStore.UpdateInventory returns: the fresh item (the Go
zero Item on failure), the previous count, and the error slot.  Go returns all
three positions on every path, so the partial previous count is visible even
when err is set. -/
structure InvReturn where
  item : Item
  previousCount : Int
  err : Option StoreError
deriving DecidableEq, Repr

/-- DynamoStore.UpdateInventory: read-modify-write.  Reads the current item,
computes the new count with Go int32 addition, fails with the insufficient
inventory error before any write when the new count is negative, otherwise
writes count, updatedAt and updatedBy in one SET expression and re-reads.
failWrite and failReread inject the backing-store failures of the write and of
the final re-read, which the source wraps as infrastructure errors while still
returning previousCount. -/
def updateInventory (t : Table) (tenantID : Int) (itemID : String)
    (quantityChange : Int) (reason updatedBy : String) (now : Nat)
    (failWrite failReread : Bool) : Table × InvReturn :=
  match getItem t tenantID itemID with
  | .error e => (t, ⟨emptyItem, 0, some e⟩)
  | .ok currentItem =>
    let previousCount := currentItem.inventoryCount
    let newCount := wrap32 (previousCount + quantityChange)
    if newCount < 0 then
      (t, ⟨emptyItem, previousCount,
           some (.insufficientInventory previousCount quantityChange)⟩)
    else if failWrite then
      (t, ⟨emptyItem, previousCount,
           some (.infrastructure "failed to update inventory")⟩)
    else
      let t2 := updateRecord t (tenantPK tenantID) (itemSK itemID) fun r =>
        { r with inventoryCount := newCount, updatedAt := now,
                 updatedBy := updatedBy }
      if failReread then
        (t2, ⟨emptyItem, previousCount,
              some (.infrastructure "failed to get item")⟩)
      else
        match getItem t2 tenantID itemID with
        | .error e => (t2, ⟨emptyItem, previousCount, some e⟩)
        | .ok updatedItem => (t2, ⟨updatedItem, previousCount, none⟩)

/-- Wire item categories, from the proto enum the handlers receive. -/
inductive PBItemCategory where
  | unspecified
  | electronics
  | clothing
  | books
  | home
  | sports
deriving DecidableEq, Repr

/-- Wire item statuses, from the proto enum the handlers receive. -/
inductive PBItemStatus where
  | unspecified
  | active
  | inactive
  | outOfStock
  | discontinued
deriving DecidableEq, Repr

/-- protoToDataCategory from the server package: unknown values collapse to
Unspecified. -/
def protoToDataCategory : PBItemCategory → ItemCategory
  | .electronics => .electronics
  | .clothing => .clothing
  | .books => .books
  | .home => .home
  | .sports => .sports
  | .unspecified => .unspecified

/-- protoToDataStatus from the server package: unknown values collapse to
Unspecified. -/
def protoToDataStatus : PBItemStatus → ItemStatus
  | .active => .active
  | .inactive => .inactive
  | .outOfStock => .outOfStock
  | .discontinued => .discontinued
  | .unspecified => .unspecified

/-- gRPC status codes the handlers emit. -/
inductive GrpcCode where
  | invalidArgument
  | notFound
  | internal
deriving DecidableEq, Repr

/-- A gRPC status error: code plus message, as built by status.Error. -/
structure GrpcError where
  code : GrpcCode
  msg : String
deriving DecidableEq, Repr

/-- CreateItemRequest fields read by the handler. -/
structure CreateItemRequest where
  tenantId : Int
  name : String
  description : String
  price : Rat
  category : PBItemCategory
  sku : String
  inventoryCount : Int
  tags : List String
  createdBy : String
deriving Repr

/-- GetItemRequest fields read by the handler. -/
structure GetItemRequest where
  tenantId : Int
  id : String
deriving Repr

/-- UpdateItemRequest fields read by the handler. -/
structure UpdateItemRequest where
  tenantId : Int
  id : String
  name : String
  description : String
  price : Rat
  category : PBItemCategory
  status : PBItemStatus
  sku : String
  inventoryCount : Int
  tags : List String
  updatedBy : String
deriving Repr

/-- DeleteItemRequest fields read by the handler. -/
structure DeleteItemRequest where
  tenantId : Int
  id : String
deriving Repr

/-- DeleteItemResponse, carrying the success flag. -/
structure DeleteItemResponse where
  success : Bool
deriving DecidableEq, Repr

/-- ListItemsRequest fields read by the handler. -/
structure ListItemsRequest where
  tenantId : Int
  category : PBItemCategory
  status : PBItemStatus
  searchQuery : String
  pageSize : Int
  pageToken : String
deriving Repr

/-- ListItemsResponse: the page, the next token and the total count field the
handler fills with the count the store returned. -/
structure ListItemsResponse where
  items : List Item
  nextPageToken : String
  totalCount : Int
deriving DecidableEq, Repr

/-- UpdateInventoryRequest fields read by the handler. -/
structure UpdateInventoryRequest where
  tenantId : Int
  itemId : String
  quantityChange : Int
  reason : String
  updatedBy : String
deriving Repr

/-- UpdateInventoryResponse: the fresh item and the previous count. -/
structure UpdateInventoryResponse where
  item : Item
  previousCount : Int
deriving DecidableEq, Repr

/-- StoreServiceServer.CreateItem: boundary validation in source order, then
the store call.  Handlers return the response-or-status together with the
table the store left behind; a rejected request returns the table untouched,
the store never being invoked. -/
def handleCreateItem (t : Table) (req : CreateItemRequest) (itemID : String)
    (now : Nat) : Except GrpcError Item × Table :=
  if req.tenantId ≤ 0 then
    (.error ⟨.invalidArgument, "tenant_id must be positive"⟩, t)
  else if req.name = "" then
    (.error ⟨.invalidArgument, "name is required"⟩, t)
  else if req.price < 0 then
    (.error ⟨.invalidArgument, "price cannot be negative"⟩, t)
  else
    let r := createItem t req.tenantId req.name req.description req.price
      (protoToDataCategory req.category) req.sku req.inventoryCount req.tags
      req.createdBy itemID now
    (.ok r.2, r.1)

/-- StoreServiceServer.GetItem: boundary validation, store call, ErrItemNotFound
mapped to NotFound and any other failure to Internal. -/
def handleGetItem (t : Table) (req : GetItemRequest) : Except GrpcError Item :=
  if req.tenantId ≤ 0 then
    .error ⟨.invalidArgument, "tenant_id must be positive"⟩
  else if req.id = "" then
    .error ⟨.invalidArgument, "id is required"⟩
  else
    match getItem t req.tenantId req.id with
    | .error .itemNotFound => .error ⟨.notFound, "item not found"⟩
    | .error _ => .error ⟨.internal, "failed to get item"⟩
    | .ok it => .ok it

/-- StoreServiceServer.UpdateItem: boundary validation in source order, then
the store call with the converted enums. -/
def handleUpdateItem (t : Table) (req : UpdateItemRequest) (now : Nat) :
    Except GrpcError Item × Table :=
  if req.tenantId ≤ 0 then
    (.error ⟨.invalidArgument, "tenant_id must be positive"⟩, t)
  else if req.id = "" then
    (.error ⟨.invalidArgument, "id is required"⟩, t)
  else if req.name = "" then
    (.error ⟨.invalidArgument, "name is required"⟩, t)
  else if req.price < 0 then
    (.error ⟨.invalidArgument, "price cannot be negative"⟩, t)
  else
    let r := updateItem t req.tenantId req.id req.name req.description
      req.price (protoToDataCategory req.category)
      (protoToDataStatus req.status) req.sku req.inventoryCount req.tags
      req.updatedBy now
    match r.2 with
    | .error .itemNotFound => (.error ⟨.notFound, "item not found"⟩, r.1)
    | .error _ => (.error ⟨.internal, "failed to update item"⟩, r.1)
    | .ok it => (.ok it, r.1)

/-- StoreServiceServer.DeleteItem: boundary validation, then the store call;
an ErrItemNotFound from the store would map to NotFound, anything else to
Internal, and success to a response with Success true. -/
def handleDeleteItem (t : Table) (req : DeleteItemRequest) (now : Nat)
    (failWrite : Bool) : Except GrpcError DeleteItemResponse × Table :=
  if req.tenantId ≤ 0 then
    (.error ⟨.invalidArgument, "tenant_id must be positive"⟩, t)
  else if req.id = "" then
    (.error ⟨.invalidArgument, "id is required"⟩, t)
  else
    let r := deleteItem t req.tenantId req.id now failWrite
    match r.2 with
    | .error .itemNotFound => (.error ⟨.notFound, "item not found"⟩, r.1)
    | .error _ => (.error ⟨.internal, "failed to delete item"⟩, r.1)
    | .ok _ => (.ok ⟨true⟩, r.1)

/-- The page-size adjustment StoreServiceServer.ListItems performs before
calling the store: a non-positive size becomes the default 100, then anything
above 1000 is capped at 1000. -/
def clampPageSize (ps : Int) : Int :=
  let ps1 := if ps ≤ 0 then 100 else ps
  if ps1 > 1000 then 1000 else ps1

/-- StoreServiceServer.ListItems: tenant validation, page-size adjustment,
then the store call with the converted enums and the verbatim token. -/
def handleListItems (t : Table) (req : ListItemsRequest) :
    Except GrpcError ListItemsResponse :=
  if req.tenantId ≤ 0 then
    .error ⟨.invalidArgument, "tenant_id must be positive"⟩
  else
    let r := listItems t req.tenantId (protoToDataCategory req.category)
      (protoToDataStatus req.status) req.searchQuery
      (clampPageSize req.pageSize) req.pageToken
    .ok ⟨r.1, r.2.1, r.2.2⟩

/-- StoreServiceServer.UpdateInventory: boundary validation, then the store
call; only ErrItemNotFound maps to NotFound, every other error (the
insufficient inventory error included) maps to Internal, and the partial
previous count of a failed store call is dropped. -/
def handleUpdateInventory (t : Table) (req : UpdateInventoryRequest)
    (now : Nat) (failWrite failReread : Bool) :
    Except GrpcError UpdateInventoryResponse × Table :=
  if req.tenantId ≤ 0 then
    (.error ⟨.invalidArgument, "tenant_id must be positive"⟩, t)
  else if req.itemId = "" then
    (.error ⟨.invalidArgument, "item_id is required"⟩, t)
  else
    let r := updateInventory t req.tenantId req.itemId req.quantityChange
      req.reason req.updatedBy now failWrite failReread
    match r.2.err with
    | some .itemNotFound => (.error ⟨.notFound, "item not found"⟩, r.1)
    | some _ => (.error ⟨.internal, "failed to update inventory"⟩, r.1)
    | none => (.ok ⟨r.2.item, r.2.previousCount⟩, r.1)

/-- A sample in-stock record under tenant 7, used by concrete witnesses. -/
def widget7 : Item :=
  { emptyItem with
    pk := "TENANT#7", sk := "ITEM#item-1", itemID := "item-1",
    tenantID := 7, name := "Widget", status := .active,
    inventoryCount := 10 }

/-- A record holding the least int32 inventory count, reachable through
CreateItem because neither the handler nor the store validates the submitted
inventory count. -/
def minIntItem : Item :=
  { emptyItem with
    pk := "TENANT#1", sk := "ITEM#a", itemID := "a",
    tenantID := 1, name := "W", status := .active,
    inventoryCount := -2147483648 }

/-- A sample electronics record under tenant 1, used by concrete witnesses. -/
def elecItem : Item :=
  { emptyItem with
    pk := "TENANT#1", sk := "ITEM#item-e", itemID := "item-e",
    tenantID := 1, name := "Camera", category := .electronics,
    status := .active, inventoryCount := 3 }

/-- A sample clothing record under tenant 1, used by concrete witnesses. -/
def clothItem : Item :=
  { emptyItem with
    pk := "TENANT#1", sk := "ITEM#item-f", itemID := "item-f",
    tenantID := 1, name := "Scarf", category := .clothing,
    status := .inactive, inventoryCount := 4 }

/-- A sample create request with valid fields, used by concrete witnesses. -/
def sampleCreateReq : CreateItemRequest :=
  ⟨7, "Widget", "a desc", 5, .electronics, "SKU-1", 10, ["t1"], "alice"⟩

/-- The record the sample create request produces, used by witnesses. -/
def sampleCreated : Item :=
  (createItem [] 7 "Widget" "a desc" 5 .electronics "SKU-1" 10 ["t1"] "alice"
    "i1" 3).2

/-- A create request with a non-positive tenant, used by concrete
witnesses. -/
def badCreateReq : CreateItemRequest :=
  ⟨0, "Widget", "d", 5, .electronics, "S", 1, [], "a"⟩

/-- Replacing every record a predicate selects leaves the first selected
record replaced in place, provided the replacement still satisfies the
predicate. -/
theorem find?_replace {p : Item → Bool} (f : Item → Item) {l : List Item}
    {a : Item} (hf : ∀ r, p r = true → p (f r) = true)
    (h : l.find? p = some a) :
    (l.map fun r => if p r then f r else r).find? p = some (f a) := by
  induction l with
  | nil => simp at h
  | cons x xs ih =>
    by_cases hx : p x = true
    · rw [List.find?_cons_of_pos _ hx] at h
      have hxa := Option.some.inj h
      subst hxa
      simp only [List.map_cons, if_pos hx]
      exact List.find?_cons_of_pos _ (hf x hx)
    · rw [List.find?_cons_of_neg _ (by simpa using hx)] at h
      simp only [List.map_cons, if_neg hx]
      rw [List.find?_cons_of_neg _ (by simpa using hx)]
      exact ih h

/-- A point write is visible to a point read at the written key. -/
theorem lookupItem_putRecord (t : Table) (it : Item) (pk sk : String)
    (hpk : it.pk = pk) (hsk : it.sk = sk) :
    lookupItem (putRecord t it) pk sk = some it := by
  subst hpk
  subst hsk
  unfold lookupItem putRecord
  by_cases hany : t.any (keyMatches it.pk it.sk) = true
  · rw [if_pos hany]
    have h1 : (t.find? (keyMatches it.pk it.sk)).isSome :=
      List.find?_isSome.mpr (List.any_eq_true.mp hany)
    obtain ⟨a, ha⟩ := Option.isSome_iff_exists.mp h1
    have h2 := find?_replace (fun _ => it)
      (fun r _ => by simp [keyMatches]) ha
    simpa using h2
  · rw [if_neg hany]
    have hnone : t.find? (keyMatches it.pk it.sk) = none := by
      rw [List.find?_eq_none]
      intro a hmem hpa
      exact hany (List.any_eq_true.mpr ⟨a, hmem, hpa⟩)
    rw [List.find?_append, hnone]
    simp [keyMatches, List.find?]

/-- An update expression applied at an occupied key is visible to a point
read at that key, provided the update keeps the key fields. -/
theorem lookupItem_updateRecord {t : Table} {pk sk : String} {it : Item}
    (f : Item → Item)
    (hf : ∀ r, keyMatches pk sk r = true → keyMatches pk sk (f r) = true)
    (h : lookupItem t pk sk = some it) :
    lookupItem (updateRecord t pk sk f) pk sk = some (f it) := by
  unfold lookupItem at h ⊢
  unfold updateRecord
  have hany : t.any (keyMatches pk sk) = true :=
    List.any_eq_true.mpr ⟨it, List.mem_of_find?_eq_some h, List.find?_some h⟩
  rw [if_pos hany]
  exact find?_replace f hf h

/-- Signed 32-bit addition is exact while the result stays in range. -/
theorem wrap32_eq_of_bounds {x : Int} (h1 : -2 ^ 31 ≤ x) (h2 : x < 2 ^ 31) :
    wrap32 x = x := by
  unfold wrap32
  have h0 : (0 : Int) ≤ x + 2 ^ 31 := by linarith
  have h3 : x + 2 ^ 31 < 2 ^ 32 := by
    have h4 : (2 : Int) ^ 32 = 2 ^ 31 + 2 ^ 31 := by norm_num
    linarith
  rw [Int.emod_eq_of_lt h0 h3]
  ring

/-- Claim C4: for every valid CreateItem call, the returned item has status
active, created_at equal to updated_at, and created_by equal to updated_by
equal to the supplied actor. -/
theorem createItem_returns_active_fresh (t : Table) (req : CreateItemRequest)
    (itemID : String) (now : Nat) (it : Item) (t2 : Table)
    (h : handleCreateItem t req itemID now = (.ok it, t2)) :
    it.status = ItemStatus.active ∧ it.createdAt = it.updatedAt ∧
    it.createdBy = req.createdBy ∧ it.updatedBy = req.createdBy := by
  unfold handleCreateItem at h
  by_cases h1 : req.tenantId ≤ 0
  · simp [h1] at h
  · by_cases h2 : req.name = ""
    · simp [h1, h2] at h
    · by_cases h3 : req.price < 0
      · simp [h1, h2, h3] at h
      · simp only [if_neg h1, if_neg h2, if_neg h3, createItem,
          Prod.mk.injEq, Except.ok.injEq] at h
        obtain ⟨h4, -⟩ := h
        subst h4
        exact ⟨rfl, rfl, rfl, rfl⟩

/-- Witness for C4 at a concrete valid request. -/
theorem createItem_returns_active_fresh_witness :
    sampleCreated.status = ItemStatus.active ∧
    sampleCreated.createdAt = sampleCreated.updatedAt ∧
    sampleCreated.createdBy = sampleCreateReq.createdBy ∧
    sampleCreated.updatedBy = sampleCreateReq.createdBy :=
  createItem_returns_active_fresh [] sampleCreateReq "i1" 3 sampleCreated
    (putRecord [] sampleCreated) rfl

/-- Claim C5: a successful CreateItem followed by GetItem on the created
identity returns an item whose business fields equal those submitted. -/
theorem create_get_round_trip (t : Table) (tenantID : Int)
    (name description : String) (price : Rat) (category : ItemCategory)
    (sku : String) (inventoryCount : Int) (tags : List String)
    (createdBy itemID : String) (now : Nat) :
    ∃ it, getItem (createItem t tenantID name description price category sku
        inventoryCount tags createdBy itemID now).1 tenantID itemID =
      Except.ok it ∧ it.name = name ∧ it.description = description ∧
      it.price = price ∧ it.category = category ∧ it.sku = sku ∧
      it.inventoryCount = inventoryCount ∧ it.tags = tags := by
  refine ⟨⟨tenantPK tenantID, itemSK itemID, itemID, tenantID, name,
    description, price, category, .active, sku, inventoryCount, tags, now,
    now, createdBy, createdBy⟩, ?_, rfl, rfl, rfl, rfl, rfl, rfl, rfl⟩
  simp only [getItem, createItem]
  rw [lookupItem_putRecord _ _ _ _ rfl rfl]

/-- Claim C8: ListItems gives identical results for any two values of the
search query, all other inputs and store state being equal. -/
theorem listItems_ignores_search_query (t : Table) (tenantID : Int)
    (category : ItemCategory) (status : ItemStatus) (q1 q2 : String)
    (pageSize : Int) (pageToken : String) :
    listItems t tenantID category status q1 pageSize pageToken =
    listItems t tenantID category status q2 pageSize pageToken := rfl

/-- Claim C2: every item a ListItems call returns matches a non-Unspecified
category filter and a non-Unspecified status filter, and the returned count is
the length of the returned post-filter sequence. -/
theorem listItems_filter_and_count (t : Table) (tenantID : Int)
    (category : ItemCategory) (status : ItemStatus) (searchQuery : String)
    (pageSize : Int) (pageToken : String) :
    (∀ i ∈ (listItems t tenantID category status searchQuery pageSize
        pageToken).1,
      (category ≠ ItemCategory.unspecified → i.category = category) ∧
      (status ≠ ItemStatus.unspecified → i.status = status)) ∧
    (listItems t tenantID category status searchQuery pageSize pageToken).2.2 =
      ((listItems t tenantID category status searchQuery pageSize
        pageToken).1.length : Int) := by
  constructor
  · intro i hi
    simp only [listItems, List.mem_filter] at hi
    obtain ⟨-, hp⟩ := hi
    simp only [Bool.and_eq_true, Bool.or_eq_true, beq_iff_eq] at hp
    obtain ⟨hcat, hstat⟩ := hp
    constructor
    · intro hne
      rcases hcat with h | h
      · exact absurd h hne
      · exact h
    · intro hne
      rcases hstat with h | h
      · exact absurd h hne
      · exact h
  · rfl

/-- Witness for C2 at a concrete store state, filter and returned item. -/
theorem listItems_filter_and_count_witness :
    ((ItemCategory.electronics ≠ ItemCategory.unspecified →
        elecItem.category = ItemCategory.electronics) ∧
      (ItemStatus.unspecified ≠ ItemStatus.unspecified →
        elecItem.status = ItemStatus.unspecified)) ∧
    (listItems [elecItem, clothItem] 1 .electronics .unspecified "q" 10
      "").2.2 =
      ((listItems [elecItem, clothItem] 1 .electronics .unspecified "q" 10
        "").1.length : Int) :=
  ⟨(listItems_filter_and_count [elecItem, clothItem] 1 .electronics
      .unspecified "q" 10 "").1 elecItem (by decide),
   (listItems_filter_and_count [elecItem, clothItem] 1 .electronics
      .unspecified "q" 10 "").2⟩

/-- Claim C1 (amended): for every item whose current inventory count is
non-negative — so the signed 32-bit addition cannot underflow — and whose
count plus the quantity change is negative, UpdateInventory fails with the
insufficient inventory error still carrying previous_count, performs no write,
and a subsequent GetItem returns the unchanged item. -/
theorem updateInventory_insufficient (t : Table) (tenantID : Int)
    (itemID : String) (quantityChange : Int) (reason updatedBy : String)
    (now : Nat) (fw fr : Bool) (it : Item)
    (hlook : lookupItem t (tenantPK tenantID) (itemSK itemID) = some it)
    (h0 : 0 ≤ it.inventoryCount) (h2 : -2 ^ 31 ≤ quantityChange)
    (hneg : it.inventoryCount + quantityChange < 0) :
    updateInventory t tenantID itemID quantityChange reason updatedBy now fw
        fr =
      (t, ⟨emptyItem, it.inventoryCount,
        some (.insufficientInventory it.inventoryCount quantityChange)⟩) ∧
    getItem t tenantID itemID = Except.ok it := by
  have hget : getItem t tenantID itemID = Except.ok it := by
    simp only [getItem, hlook]
  have hwrap : wrap32 (it.inventoryCount + quantityChange) =
      it.inventoryCount + quantityChange :=
    wrap32_eq_of_bounds (by linarith) (by linarith)
  refine ⟨?_, hget⟩
  simp only [updateInventory, hget, hwrap]
  rw [if_pos hneg]

/-- Witness for C1 at the concrete scenario of the specification: count 10,
change -15. -/
theorem updateInventory_insufficient_witness :
    updateInventory [widget7] 7 "item-1" (-15) "sale" "bob" 9 false false =
      ([widget7], ⟨emptyItem, 10,
        some (StoreError.insufficientInventory 10 (-15))⟩) ∧
    getItem [widget7] 7 "item-1" = Except.ok widget7 :=
  updateInventory_insufficient [widget7] 7 "item-1" (-15) "sale" "bob" 9
    false false widget7 (by decide) (by decide) (by decide) (by decide)

/-- Counterexample to claim C1 as stated: an item stored with the least int32
count — reachable because no layer validates the submitted inventory count —
plus change -1 has a negative mathematical sum, yet the int32 sum wraps to
2147483647, so the operation succeeds and writes instead of failing with the
insufficient inventory error and leaving the count unchanged. -/
theorem updateInventory_underflow_counterexample :
    ((-2147483648 : Int) + (-1) < 0) ∧
    (updateInventory [minIntItem] 1 "a" (-1) "sale" "bob" 9 false
        false).2.err = none ∧
    getItem (updateInventory [minIntItem] 1 "a" (-1) "sale" "bob" 9 false
        false).1 1 "a" =
      Except.ok { minIntItem with
        inventoryCount := 2147483647, updatedAt := 9, updatedBy := "bob" } :=
  ⟨by decide, by decide, by rfl⟩

/-- Claim C6: for every existing item, DeleteItem followed by GetItem on the
same identity succeeds and returns the item with status discontinued and
updated_at refreshed, every other field unchanged. -/
theorem deleteItem_soft_delete (t : Table) (tenantID : Int) (itemID : String)
    (now : Nat) (it : Item)
    (hlook : lookupItem t (tenantPK tenantID) (itemSK itemID) = some it) :
    (deleteItem t tenantID itemID now false).2 = Except.ok () ∧
    getItem (deleteItem t tenantID itemID now false).1 tenantID itemID =
      Except.ok { it with
        status := ItemStatus.discontinued, updatedAt := now } := by
  constructor
  · rfl
  · have h := lookupItem_updateRecord
      (fun r => { r with status := ItemStatus.discontinued, updatedAt := now })
      (fun r hr => hr) hlook
    have e1 : (deleteItem t tenantID itemID now false).1 =
        updateRecord t (tenantPK tenantID) (itemSK itemID)
          (fun r => { r with
            status := ItemStatus.discontinued, updatedAt := now }) := rfl
    rw [e1]
    simp only [getItem]
    rw [h]

/-- Witness for C6 at a concrete existing item. -/
theorem deleteItem_soft_delete_witness :
    (deleteItem [widget7] 7 "item-1" 9 false).2 = Except.ok () ∧
    getItem (deleteItem [widget7] 7 "item-1" 9 false).1 7 "item-1" =
      Except.ok { widget7 with
        status := ItemStatus.discontinued, updatedAt := 9 } :=
  deleteItem_soft_delete [widget7] 7 "item-1" 9 widget7 (by decide)

/-- Claim C3: the next page token is the raw sort key of the last record the
backing store evaluated on the unfiltered page (empty when it reports no last
evaluated key), and a caller token is passed verbatim, unvalidated, as the
exclusive start sort key of the query. -/
theorem listItems_token_semantics (t : Table) (tenantID : Int)
    (category : ItemCategory) (status : ItemStatus) (searchQuery : String)
    (pageSize : Int) (pageToken : String) :
    ((queryPage t (tenantPK tenantID) "ITEM#" pageToken pageSize.toNat).2 =
        none →
      (listItems t tenantID category status searchQuery pageSize
        pageToken).2.1 = "") ∧
    (∀ sk, (queryPage t (tenantPK tenantID) "ITEM#" pageToken
        pageSize.toNat).2 = some sk →
      (listItems t tenantID category status searchQuery pageSize
          pageToken).2.1 = sk ∧
        ∃ r, (queryPage t (tenantPK tenantID) "ITEM#" pageToken
          pageSize.toNat).1.getLast? = some r ∧ r.sk = sk) ∧
    (pageToken ≠ "" →
      (queryPage t (tenantPK tenantID) "ITEM#" pageToken pageSize.toNat).1 =
        (t.filter fun r => r.pk == tenantPK tenantID &&
          skHasMark "ITEM#" r.sk && skLt pageToken r.sk).take
          pageSize.toNat) := by
  refine ⟨?_, ?_, ?_⟩
  · intro h
    simp only [listItems]
    rw [h]
  · intro sk h
    constructor
    · simp only [listItems]
      rw [h]
    · simp only [queryPage] at h
      split at h
      · simp only [Option.map_eq_some'] at h
        obtain ⟨r, h1, h2⟩ := h
        exact ⟨r, h1, h2⟩
      · cases h
  · intro htok
    have hfalse : (pageToken == "") = false := by
      simpa using htok
    simp only [queryPage]
    congr 1
    apply List.filter_congr
    intro a _
    rw [hfalse, Bool.false_or]

/-- Witness for C3: a full page yields the last evaluated sort key as the
token, a short page yields the empty token, and a non-empty caller token is
the strict lower bound of the follow-up query. -/
theorem listItems_token_semantics_witness :
    ((listItems [elecItem, clothItem] 1 .unspecified .unspecified "s" 1
        "").2.1 = "ITEM#item-e" ∧
      ∃ r, (queryPage [elecItem, clothItem] (tenantPK 1) "ITEM#" ""
        (1 : Int).toNat).1.getLast? = some r ∧ r.sk = "ITEM#item-e") ∧
    ((queryPage [elecItem, clothItem] (tenantPK 1) "ITEM#" "ITEM#item-e"
        (5 : Int).toNat).1 =
      ([elecItem, clothItem].filter fun r => r.pk == tenantPK 1 &&
        skHasMark "ITEM#" r.sk && skLt "ITEM#item-e" r.sk).take
        (5 : Int).toNat) ∧
    (listItems [elecItem, clothItem] 1 .unspecified .unspecified "s" 5
      "").2.1 = "" :=
  ⟨(listItems_token_semantics [elecItem, clothItem] 1 .unspecified
      .unspecified "s" 1 "").2.1 "ITEM#item-e" (by decide),
   (listItems_token_semantics [elecItem, clothItem] 1 .unspecified
      .unspecified "s" 5 "ITEM#item-e").2.2 (by decide),
   (listItems_token_semantics [elecItem, clothItem] 1 .unspecified
      .unspecified "s" 5 "").1 (by decide)⟩

/-- Claim C9 (amended): every failing UpdateInventory outcome reached after a
successful initial read — the insufficient inventory failure, the
backing-store write failure, and the post-write re-read failure — carries
previous_count equal to the stored count, while a failed initial read carries
previous_count 0 and no partial value. -/
theorem updateInventory_partial_return (t : Table) (tenantID : Int)
    (itemID : String) (quantityChange : Int) (reason updatedBy : String)
    (now : Nat) (fw fr : Bool) (e : StoreError)
    (h : (updateInventory t tenantID itemID quantityChange reason updatedBy
        now fw fr).2.err = some e) :
    (e = StoreError.itemNotFound ∧
      (updateInventory t tenantID itemID quantityChange reason updatedBy now
        fw fr).2.previousCount = 0 ∧
      lookupItem t (tenantPK tenantID) (itemSK itemID) = none) ∨
    (e ≠ StoreError.itemNotFound ∧
      ∃ it, lookupItem t (tenantPK tenantID) (itemSK itemID) = some it ∧
        (updateInventory t tenantID itemID quantityChange reason updatedBy
          now fw fr).2.previousCount = it.inventoryCount) := by
  cases hlook : lookupItem t (tenantPK tenantID) (itemSK itemID) with
  | none =>
    have hget : getItem t tenantID itemID =
        Except.error StoreError.itemNotFound := by
      simp only [getItem, hlook]
    simp only [updateInventory, hget] at h
    have he := Option.some.inj h
    subst he
    left
    refine ⟨rfl, ?_, rfl⟩
    simp only [updateInventory, hget]
  | some it =>
    right
    have hget : getItem t tenantID itemID = Except.ok it := by
      simp only [getItem, hlook]
    have hget2 : getItem (updateRecord t (tenantPK tenantID) (itemSK itemID)
        (fun r => { r with
          inventoryCount := wrap32 (it.inventoryCount + quantityChange),
          updatedAt := now, updatedBy := updatedBy })) tenantID itemID =
        Except.ok { it with
          inventoryCount := wrap32 (it.inventoryCount + quantityChange),
          updatedAt := now, updatedBy := updatedBy } := by
      simp only [getItem]
      rw [lookupItem_updateRecord (fun r => { r with
        inventoryCount := wrap32 (it.inventoryCount + quantityChange),
        updatedAt := now, updatedBy := updatedBy }) (fun r hr => hr) hlook]
    simp only [updateInventory, hget, hget2] at h ⊢
    by_cases hneg : wrap32 (it.inventoryCount + quantityChange) < 0
    · rw [if_pos hneg] at h ⊢
      have he := Option.some.inj h
      subst he
      exact ⟨by simp, it, rfl, rfl⟩
    · rw [if_neg hneg] at h ⊢
      by_cases hfw : fw = true
      · rw [if_pos hfw] at h ⊢
        have he := Option.some.inj h
        subst he
        exact ⟨by simp, it, rfl, rfl⟩
      · rw [if_neg hfw] at h ⊢
        by_cases hfr : fr = true
        · rw [if_pos hfr] at h ⊢
          have he := Option.some.inj h
          subst he
          exact ⟨by simp, it, rfl, rfl⟩
        · rw [if_neg hfr] at h
          simp at h

/-- Witness for C9 at a concrete failing re-read: the infrastructure failure
still carries previous_count of the stored item. -/
theorem updateInventory_partial_return_witness :
    (StoreError.infrastructure "failed to get item" =
        StoreError.itemNotFound ∧
      (updateInventory [widget7] 7 "item-1" (-1) "sale" "bob" 9 false
        true).2.previousCount = 0 ∧
      lookupItem [widget7] (tenantPK 7) (itemSK "item-1") = none) ∨
    (StoreError.infrastructure "failed to get item" ≠
        StoreError.itemNotFound ∧
      ∃ it, lookupItem [widget7] (tenantPK 7) (itemSK "item-1") = some it ∧
        (updateInventory [widget7] 7 "item-1" (-1) "sale" "bob" 9 false
          true).2.previousCount = it.inventoryCount) :=
  updateInventory_partial_return [widget7] 7 "item-1" (-1) "sale" "bob" 9
    false true (StoreError.infrastructure "failed to get item") (by decide)

/-- Counterexample to claim C9 as stated: a backing-store write failure — a
failing UpdateInventory outcome other than insufficient inventory — still
carries previous_count 10 of the stored item. -/
theorem updateInventory_partial_on_infra_counterexample :
    (updateInventory [widget7] 7 "item-1" (-1) "sale" "bob" 9 true
        false).2.err =
      some (StoreError.infrastructure "failed to update inventory") ∧
    (updateInventory [widget7] 7 "item-1" (-1) "sale" "bob" 9 true
        false).2.previousCount = 10 :=
  ⟨by decide, by decide⟩

/-- Claim C10: the store DeleteItem never fails with ItemNotFound, the
handler NotFound branch for DeleteItem is unreachable, and a valid delete of
a non-existent item reports Success true. -/
theorem deleteItem_never_notFound :
    (∀ (t : Table) (tenantID : Int) (itemID : String) (now : Nat)
        (fw : Bool),
      (deleteItem t tenantID itemID now fw).2 ≠
        Except.error StoreError.itemNotFound) ∧
    (∀ (t : Table) (req : DeleteItemRequest) (now : Nat) (fw : Bool)
        (e : GrpcError),
      (handleDeleteItem t req now fw).1 = .error e →
        e.code ≠ GrpcCode.notFound) ∧
    (∀ (t : Table) (req : DeleteItemRequest) (now : Nat),
      0 < req.tenantId → req.id ≠ "" →
      (handleDeleteItem t req now false).1 = Except.ok ⟨true⟩) := by
  refine ⟨?_, ?_, ?_⟩
  · intro t tenantID itemID now fw
    cases fw
    · intro hc
      simp [deleteItem] at hc
    · intro hc
      simp [deleteItem] at hc
  · intro t req now fw e h
    unfold handleDeleteItem at h
    by_cases h1 : req.tenantId ≤ 0
    · rw [if_pos h1] at h
      obtain rfl := Except.error.inj h
      decide
    · by_cases h2 : req.id = ""
      · rw [if_neg h1, if_pos h2] at h
        obtain rfl := Except.error.inj h
        decide
      · rw [if_neg h1, if_neg h2] at h
        dsimp only at h
        cases hr2 : (deleteItem t req.tenantId req.id now fw).2 with
        | error e2 =>
          cases e2 with
          | itemNotFound =>
            cases fw <;> simp [deleteItem] at hr2
          | insufficientInventory a b =>
            rw [hr2] at h
            obtain rfl := Except.error.inj h
            decide
          | infrastructure m =>
            rw [hr2] at h
            obtain rfl := Except.error.inj h
            decide
        | ok u =>
          rw [hr2] at h
          simp at h
  · intro t req now h1 h2
    unfold handleDeleteItem
    rw [if_neg (not_le.mpr h1), if_neg h2]
    rfl

/-- Witness for C10: deleting a non-existent item from an empty store does
not yield ItemNotFound and the handler reports Success true. -/
theorem deleteItem_never_notFound_witness :
    (deleteItem [] 1 "ghost" 0 false).2 ≠
      Except.error StoreError.itemNotFound ∧
    (handleDeleteItem [] ⟨1, "ghost"⟩ 0 false).1 = Except.ok ⟨true⟩ :=
  ⟨deleteItem_never_notFound.1 [] 1 "ghost" 0 false,
   deleteItem_never_notFound.2.2 [] ⟨1, "ghost"⟩ 0 (by decide) (by decide)⟩

/-- Claim C7: every handler rejects a non-positive tenant, a missing item
identifier on single-item operations, and an empty name or negative price on
create and update with InvalidArgument, the store left uninvoked and the
table untouched; ListItems replaces a non-positive page size with 100 and
caps anything above 1000 at 1000 before calling the store. -/
theorem handler_validation_and_clamp :
    (∀ (t : Table) (req : CreateItemRequest) (itemID : String) (now : Nat),
      req.tenantId ≤ 0 ∨ req.name = "" ∨ req.price < 0 →
      (handleCreateItem t req itemID now).2 = t ∧
      ∃ m, (handleCreateItem t req itemID now).1 =
        .error ⟨GrpcCode.invalidArgument, m⟩) ∧
    (∀ (t : Table) (req : GetItemRequest),
      req.tenantId ≤ 0 ∨ req.id = "" →
      ∃ m, handleGetItem t req = .error ⟨GrpcCode.invalidArgument, m⟩) ∧
    (∀ (t : Table) (req : UpdateItemRequest) (now : Nat),
      req.tenantId ≤ 0 ∨ req.id = "" ∨ req.name = "" ∨ req.price < 0 →
      (handleUpdateItem t req now).2 = t ∧
      ∃ m, (handleUpdateItem t req now).1 =
        .error ⟨GrpcCode.invalidArgument, m⟩) ∧
    (∀ (t : Table) (req : DeleteItemRequest) (now : Nat) (fw : Bool),
      req.tenantId ≤ 0 ∨ req.id = "" →
      (handleDeleteItem t req now fw).2 = t ∧
      ∃ m, (handleDeleteItem t req now fw).1 =
        .error ⟨GrpcCode.invalidArgument, m⟩) ∧
    (∀ (t : Table) (req : UpdateInventoryRequest) (now : Nat) (fw fr : Bool),
      req.tenantId ≤ 0 ∨ req.itemId = "" →
      (handleUpdateInventory t req now fw fr).2 = t ∧
      ∃ m, (handleUpdateInventory t req now fw fr).1 =
        .error ⟨GrpcCode.invalidArgument, m⟩) ∧
    (∀ (t : Table) (req : ListItemsRequest),
      req.tenantId ≤ 0 →
      ∃ m, handleListItems t req = .error ⟨GrpcCode.invalidArgument, m⟩) ∧
    (∀ (t : Table) (req : ListItemsRequest),
      0 < req.tenantId →
      handleListItems t req = .ok
        ⟨(listItems t req.tenantId (protoToDataCategory req.category)
            (protoToDataStatus req.status) req.searchQuery
            (clampPageSize req.pageSize) req.pageToken).1,
          (listItems t req.tenantId (protoToDataCategory req.category)
            (protoToDataStatus req.status) req.searchQuery
            (clampPageSize req.pageSize) req.pageToken).2.1,
          (listItems t req.tenantId (protoToDataCategory req.category)
            (protoToDataStatus req.status) req.searchQuery
            (clampPageSize req.pageSize) req.pageToken).2.2⟩) ∧
    (∀ ps : Int, (ps ≤ 0 → clampPageSize ps = 100) ∧
      (1000 < ps → clampPageSize ps = 1000) ∧
      0 < clampPageSize ps ∧ clampPageSize ps ≤ 1000) := by
  refine ⟨?_, ?_, ?_, ?_, ?_, ?_, ?_, ?_⟩
  · intro t req itemID now h
    unfold handleCreateItem
    by_cases h1 : req.tenantId ≤ 0
    · rw [if_pos h1]
      exact ⟨rfl, _, rfl⟩
    · by_cases h2 : req.name = ""
      · rw [if_neg h1, if_pos h2]
        exact ⟨rfl, _, rfl⟩
      · have h3 : req.price < 0 := by
          rcases h with h | h | h
          · exact absurd h h1
          · exact absurd h h2
          · exact h
        rw [if_neg h1, if_neg h2, if_pos h3]
        exact ⟨rfl, _, rfl⟩
  · intro t req h
    unfold handleGetItem
    by_cases h1 : req.tenantId ≤ 0
    · rw [if_pos h1]
      exact ⟨_, rfl⟩
    · have h2 : req.id = "" := by
        rcases h with h | h
        · exact absurd h h1
        · exact h
      rw [if_neg h1, if_pos h2]
      exact ⟨_, rfl⟩
  · intro t req now h
    unfold handleUpdateItem
    by_cases h1 : req.tenantId ≤ 0
    · rw [if_pos h1]
      exact ⟨rfl, _, rfl⟩
    · by_cases h2 : req.id = ""
      · rw [if_neg h1, if_pos h2]
        exact ⟨rfl, _, rfl⟩
      · by_cases h3 : req.name = ""
        · rw [if_neg h1, if_neg h2, if_pos h3]
          exact ⟨rfl, _, rfl⟩
        · have h4 : req.price < 0 := by
            rcases h with h | h | h | h
            · exact absurd h h1
            · exact absurd h h2
            · exact absurd h h3
            · exact h
          rw [if_neg h1, if_neg h2, if_neg h3, if_pos h4]
          exact ⟨rfl, _, rfl⟩
  · intro t req now fw h
    unfold handleDeleteItem
    by_cases h1 : req.tenantId ≤ 0
    · rw [if_pos h1]
      exact ⟨rfl, _, rfl⟩
    · have h2 : req.id = "" := by
        rcases h with h | h
        · exact absurd h h1
        · exact h
      rw [if_neg h1, if_pos h2]
      exact ⟨rfl, _, rfl⟩
  · intro t req now fw fr h
    unfold handleUpdateInventory
    by_cases h1 : req.tenantId ≤ 0
    · rw [if_pos h1]
      exact ⟨rfl, _, rfl⟩
    · have h2 : req.itemId = "" := by
        rcases h with h | h
        · exact absurd h h1
        · exact h
      rw [if_neg h1, if_pos h2]
      exact ⟨rfl, _, rfl⟩
  · intro t req h
    unfold handleListItems
    rw [if_pos h]
    exact ⟨_, rfl⟩
  · intro t req h
    unfold handleListItems
    rw [if_neg (not_le.mpr h)]
  · intro ps
    refine ⟨?_, ?_, ?_, ?_⟩
    · intro h
      simp only [clampPageSize, if_pos h]
      norm_num
    · intro h
      have h0 : ¬ ps ≤ 0 := by omega
      simp only [clampPageSize, if_neg h0]
      rw [if_pos h]
    · simp only [clampPageSize]
      split_ifs <;> omega
    · simp only [clampPageSize]
      split_ifs <;> omega

/-- Witness for C7 at concrete rejected requests and page sizes. -/
theorem handler_validation_and_clamp_witness :
    ((handleCreateItem [] badCreateReq "i" 0).2 = [] ∧
      ∃ m, (handleCreateItem [] badCreateReq "i" 0).1 =
        .error ⟨GrpcCode.invalidArgument, m⟩) ∧
    (∃ m, handleGetItem [] ⟨3, ""⟩ =
      .error ⟨GrpcCode.invalidArgument, m⟩) ∧
    clampPageSize (-5) = 100 ∧ clampPageSize 2000 = 1000 :=
  ⟨handler_validation_and_clamp.1 [] badCreateReq "i" 0 (Or.inl (by decide)),
   handler_validation_and_clamp.2.1 [] ⟨3, ""⟩ (Or.inr rfl),
   (handler_validation_and_clamp.2.2.2.2.2.2.2 (-5)).1 (by decide),
   (handler_validation_and_clamp.2.2.2.2.2.2.2 2000).2.1 (by decide)⟩

end StoreService
